import Mathlib

/-!
Verification development for the asynchronous query-execution subsystem of
`src/app.py` (classes `LLMWorker` and `LLMInterface`).

The embedding is shallow: the worker's `run` method becomes a function from
the worker's captured fields and an opaque backend to the list of signals it
emits, in emission order; the interface's slot methods become state
transformers on a record of the UI fields they touch.  The LangChain/Ollama
invocation (construction of `OllamaLLM`, `PromptTemplate` formatting and
`chain.invoke`) is opaque to the repository and is modelled as a `Backend`
function that either returns the output mapping of `chain.invoke` or the
text of a raised exception (`Except.error`), covering connectivity faults,
invalid models and malformed responses alike.
-/

/-- Lifecycle signals of `LLMWorker` (src/app.py lines 16-18): `finished`,
`error` and `progress`, each carrying one string payload. -/
inductive Notification where
  | progress (msg : String)
  | finished (text : String)
  | error (msg : String)
  deriving DecidableEq, Repr

/-- Terminal signals are `finished` and `error`; `progress` is not. -/
def Notification.isTerminal : Notification → Bool
  | .progress _ => false
  | .finished _ => true
  | .error _ => true

/-- Fields captured by `LLMWorker.__init__` (src/app.py lines 20-25).
The temperature is the already-parsed float from the selector, modelled as a
rational; `csv_context` is `None` or a string, as in the Python default. -/
structure LLMWorker where
  question : String
  model_name : String
  temperature : ℚ
  csv_context : Option String
  deriving DecidableEq, Repr

/-- Template used when the worker has a truthy csv context
(src/app.py lines 37-42), with both variables substituted as
`chain.invoke` does. -/
def promptWithCsv (csv_context question : String) : String :=
  "CSV Data Context:\n" ++ csv_context ++ "\n\nQuestion about the data: " ++
    question ++ "\n\nProvide a clear and detailed answer based on the CSV data above:"

/-- Template used when the worker has no truthy csv context
(src/app.py line 55). -/
def promptNoCsv (question : String) : String :=
  "Question: " ++ question ++ "\nDetailed Answer:"

/-- Branch on `if self.csv_context:` (src/app.py line 36): Python truthiness
of an optional string is "present and non-empty". -/
def buildPrompt (question : String) (csv_context : Option String) : String :=
  match csv_context with
  | some c => if c = "" then promptNoCsv question else promptWithCsv c question
  | none => promptNoCsv question

/-- Prompt the worker sends to the backend, as rendered inside `run`. -/
def LLMWorker.renderedPrompt (w : LLMWorker) : String :=
  buildPrompt w.question w.csv_context

/-- Model of the opaque LangChain/Ollama invocation: given model name,
temperature and prompt text it either returns the output mapping of
`chain.invoke` (a string-keyed dictionary) or raises, represented by
`Except.error` carrying `str(e)`. -/
abbrev Backend := String → ℚ → String → Except String (List (String × String))

/-- Message of the Python `KeyError` raised by `response["text"]` when the
key is absent: `str(KeyError("text"))` is the key in single quotes. -/
def keyErrorText : String := "\x27text\x27"

/-- Embedding of `LLMWorker.run` (src/app.py lines 27-62) as the ordered
list of signal emissions: first `progress.emit("Initializing LLM...")`, then
the backend call on the rendered prompt inside the `try` block; on success
`finished.emit(response["text"])`, and any exception — one raised by the
backend or the `KeyError` from a response missing `"text"` — is caught by
the `except` clause and becomes `error.emit(str(e))`. -/
def LLMWorker.run (w : LLMWorker) (backend : Backend) : List Notification :=
  Notification.progress "Initializing LLM..." ::
    match backend w.model_name w.temperature w.renderedPrompt with
    | Except.error e => [Notification.error e]
    | Except.ok response =>
      match response.lookup "text" with
      | some t => [Notification.finished t]
      | none => [Notification.error keyErrorText]

/-- Data of the loaded pandas DataFrame that `process_question` reads:
shape, column names, and the rendered `head()`/`describe()` strings
(the rendering itself is pandas, outside the repository). -/
structure DataFrame where
  nrows : Nat
  ncols : Nat
  columns : List String
  headStr : String
  describeStr : String
  deriving DecidableEq, Repr

/-- The csv-context f-string built in `process_question`
(src/app.py lines 321-328). -/
def csvContextOf (df : DataFrame) : String :=
  "The CSV file has " ++ toString df.nrows ++ " rows and " ++
    toString df.ncols ++ " columns.\nColumn names: " ++
    String.intercalate ", " df.columns ++
    "\n\nFirst few rows of the data:\n" ++ df.headStr ++
    "\n\nSummary statistics:\n" ++ df.describeStr

/-- The widget state `LLMInterface` mutates around a query: enabled flags of
the four input controls, visibility of the progress bar, and the text of the
output area and status label. -/
structure UIState where
  submitEnabled : Bool
  inputEnabled : Bool
  modelEnabled : Bool
  tempEnabled : Bool
  progressVisible : Bool
  outputText : String
  statusText : String
  deriving DecidableEq, Repr

/-- State of the `LLMInterface` window relevant to the query subsystem:
the loaded dataframe, the text of the question box, the current selector
values, the widget state, the `self.worker` reference, and the set of
workers whose signals have been connected to the slots — `process_question`
connects each new worker and nothing in the file ever disconnects one. -/
structure LLMInterface where
  df : Option DataFrame
  inputText : String
  modelText : String
  temperature : ℚ
  ui : UIState
  worker : Option LLMWorker
  connections : List LLMWorker
  deriving DecidableEq, Repr

/-- Python `str.strip()`: drop leading and trailing whitespace. -/
def pyStrip (s : String) : String :=
  String.mk (((s.data.dropWhile Char.isWhitespace).reverse.dropWhile
    Char.isWhitespace).reverse)

/-- Embedding of `LLMInterface.process_question` (src/app.py lines 305-340):
strip the question and return unchanged on emptiness; otherwise disable the
input controls, show the progress bar, build the csv context when a
dataframe is loaded, overwrite `self.worker` with a new connected worker and
start it.  The returned option is the worker started by this call, `none`
when the submission was rejected. -/
def LLMInterface.process_question (s : LLMInterface) :
    LLMInterface × Option LLMWorker :=
  let question := pyStrip s.inputText
  if question = "" then (s, none)
  else
    let csv_context := s.df.map csvContextOf
    let w : LLMWorker := ⟨question, s.modelText, s.temperature, csv_context⟩
    ({ s with
        ui := { s.ui with
          submitEnabled := false, inputEnabled := false,
          modelEnabled := false, tempEnabled := false,
          progressVisible := true },
        worker := some w,
        connections := w :: s.connections },
      some w)

/-- Embedding of `LLMInterface._reset_ui` (src/app.py lines 355-360). -/
def LLMInterface._reset_ui (s : LLMInterface) : LLMInterface :=
  { s with ui := { s.ui with
      submitEnabled := true, inputEnabled := true,
      modelEnabled := true, tempEnabled := true,
      progressVisible := false } }

/-- Embedding of `LLMInterface.handle_response` (src/app.py lines 342-345). -/
def LLMInterface.handle_response (s : LLMInterface) (response : String) :
    LLMInterface :=
  LLMInterface._reset_ui
    { s with ui := { s.ui with
        outputText := response, statusText := "Response complete" } }

/-- Embedding of `LLMInterface.handle_error` (src/app.py lines 347-350). -/
def LLMInterface.handle_error (s : LLMInterface) (error_message : String) :
    LLMInterface :=
  LLMInterface._reset_ui
    { s with ui := { s.ui with
        outputText := "Error: " ++ error_message,
        statusText := "Error occurred" } }

/-- Embedding of `LLMInterface.handle_progress` (src/app.py lines 352-353). -/
def LLMInterface.handle_progress (s : LLMInterface) (message : String) :
    LLMInterface :=
  { s with ui := { s.ui with statusText := message } }

/-- Dispatch of one signal to the slot it is connected to
(src/app.py lines 337-339); slots receive only the payload, never the
identity of the emitting worker. -/
def LLMInterface.dispatch (s : LLMInterface) : Notification → LLMInterface
  | .progress m => s.handle_progress m
  | .finished t => s.handle_response t
  | .error m => s.handle_error m

/-- Delivery of a signal emitted by worker `w`: the slots run exactly when
`w` was connected by some `process_question` call — the file contains no
`disconnect`, so superseded workers stay connected. -/
def LLMInterface.deliver (s : LLMInterface) (w : LLMWorker)
    (n : Notification) : LLMInterface :=
  if w ∈ s.connections then s.dispatch n else s

/-- Substring containment, stated on the underlying character lists. -/
def strContains (s t : String) : Prop := t.data <:+: s.data

instance (s t : String) : Decidable (strContains s t) := by
  unfold strContains; infer_instance

/-- A string built as `(p ++ t) ++ r` contains `t`. -/
theorem strContains_intro (p t r : String) : strContains ((p ++ t) ++ r) t :=
  ⟨p.data, r.data, by simp [String.data_append]⟩

/-- Appending on the right of a non-empty string keeps it non-empty. -/
theorem append_ne_empty_left (a b : String) (ha : a ≠ "") : a ++ b ≠ "" := by
  intro h
  apply ha
  have hd := congrArg String.data h
  rw [String.data_append] at hd
  rcases List.append_eq_nil.mp hd with ⟨h1, _⟩
  cases a
  simp only [String.data] at h1
  simp [h1]

/-- The csv context built from any dataframe is a non-empty string, hence
truthy in the branch of `LLMWorker.run`. -/
theorem csvContextOf_ne_empty (df : DataFrame) : csvContextOf df ≠ "" := by
  unfold csvContextOf
  apply append_ne_empty_left
  apply append_ne_empty_left
  apply append_ne_empty_left
  apply append_ne_empty_left
  apply append_ne_empty_left
  apply append_ne_empty_left
  apply append_ne_empty_left
  apply append_ne_empty_left
  apply append_ne_empty_left
  decide

/-- Fixture: a worker for question `"Q"` with no csv context. -/
def wQ : LLMWorker := ⟨"Q", "deepseek-r1:7b", 1, none⟩

/-- Fixture: a backend whose invocation raises a connectivity fault. -/
def bFailure : Backend := fun _ _ _ => Except.error "connection refused"

/-- Fixture: a backend whose invocation succeeds with output text `"T"`. -/
def bOkT : Backend := fun _ _ _ => Except.ok [("question", "Q"), ("text", "T")]

/-- Fixture: a backend whose invocation returns a mapping without the
`"text"` key. -/
def bMalformed : Backend := fun _ _ _ => Except.ok [("question", "Q")]

/-- C1: for every accepted submission, the worker's notifications are
delivered in strict order — here, exactly one initial progress notification
followed by exactly one terminal notification (`finished` or `error`), and
nothing is emitted after the terminal one, whatever the backend does. -/
theorem run_ordering (w : LLMWorker) (b : Backend) :
    ∃ t : Notification, t.isTerminal = true ∧
      w.run b = [Notification.progress "Initializing LLM...", t] := by
  unfold LLMWorker.run
  cases hb : b w.model_name w.temperature w.renderedPrompt with
  | error e => exact ⟨Notification.error e, rfl, rfl⟩
  | ok response =>
    cases hl : response.lookup "text" with
    | none => exact ⟨Notification.error keyErrorText, rfl, by simp [hl]⟩
    | some t => exact ⟨Notification.finished t, rfl, by simp [hl]⟩

/-- C2: every fault of the background invocation — an exception raised by
the backend call, or the `KeyError` from a response missing the `"text"`
key — is caught inside `run` and becomes exactly one `error` emission
carrying the fault's text; `run` always returns (totally), so no exception
escapes the background unit of work. -/
theorem run_fault_to_error (w : LLMWorker) (b : Backend) :
    (∀ e, b w.model_name w.temperature w.renderedPrompt = Except.error e →
      w.run b = [Notification.progress "Initializing LLM...",
        Notification.error e]) ∧
    (∀ response,
      b w.model_name w.temperature w.renderedPrompt = Except.ok response →
      response.lookup "text" = none →
      w.run b = [Notification.progress "Initializing LLM...",
        Notification.error keyErrorText]) := by
  constructor
  · intro e hb
    unfold LLMWorker.run
    rw [hb]
  · intro response hb hl
    unfold LLMWorker.run
    rw [hb]
    simp [hl]

/-- Witness for C2: a connectivity fault and a malformed response each yield
exactly the progress emission followed by the matching `error` emission. -/
theorem run_fault_to_error_witness :
    wQ.run bFailure = [Notification.progress "Initializing LLM...",
      Notification.error "connection refused"] ∧
    wQ.run bMalformed = [Notification.progress "Initializing LLM...",
      Notification.error keyErrorText] :=
  ⟨(run_fault_to_error wQ bFailure).1 "connection refused" rfl,
   (run_fault_to_error wQ bMalformed).2 [("question", "Q")] rfl rfl⟩

/-- C4: when the backend succeeds and its response carries text `T`, the
worker emits `finished` with exactly that text, exactly once. -/
theorem run_success_finished (w : LLMWorker) (b : Backend)
    (response : List (String × String)) (T : String)
    (hb : b w.model_name w.temperature w.renderedPrompt = Except.ok response)
    (ht : response.lookup "text" = some T) :
    w.run b = [Notification.progress "Initializing LLM...",
      Notification.finished T] ∧
    (w.run b).count (Notification.finished T) = 1 := by
  have he : w.run b = [Notification.progress "Initializing LLM...",
      Notification.finished T] := by
    unfold LLMWorker.run
    rw [hb]
    simp [ht]
  refine ⟨he, ?_⟩
  rw [he]
  simp [List.count_cons]

/-- Witness for C4: the always-`"T"` backend yields `finished "T"`. -/
theorem run_success_finished_witness :
    wQ.run bOkT = [Notification.progress "Initializing LLM...",
      Notification.finished "T"] ∧
    (wQ.run bOkT).count (Notification.finished "T") = 1 :=
  run_success_finished wQ bOkT [("question", "Q"), ("text", "T")] "T" rfl rfl

/-- C10: a present-but-empty csv context is falsy in Python, so the worker
renders the no-dataset template and behaves exactly as if no csv context had
been supplied, for every backend. -/
theorem empty_csv_context_like_none (q m : String) (t : ℚ) (b : Backend) :
    buildPrompt q (some "") = buildPrompt q none ∧
    LLMWorker.run ⟨q, m, t, some ""⟩ b = LLMWorker.run ⟨q, m, t, none⟩ b := by
  constructor
  · simp [buildPrompt]
  · unfold LLMWorker.run LLMWorker.renderedPrompt
    simp [buildPrompt]

/-- C3: a question that strips to the empty string is rejected before
anything happens — `process_question` returns with the interface state
untouched (no UI change, no worker field update, no new connection) and no
worker is created or started, so no backend call can occur. -/
theorem process_question_rejects_blank (s : LLMInterface)
    (h : pyStrip s.inputText = "") :
    s.process_question = (s, none) := by
  unfold LLMInterface.process_question
  simp [h]

/-- Fixture: an interface whose question box holds only whitespace. -/
def sBlank : LLMInterface :=
  ⟨none, "  \t ", "deepseek-r1:7b", 1,
    ⟨true, true, true, true, false, "", ""⟩, none, []⟩

/-- Witness for C3: the whitespace-only question is rejected with the state
unchanged and no worker. -/
theorem process_question_rejects_blank_witness :
    sBlank.process_question = (sBlank, none) :=
  process_question_rejects_blank sBlank (by decide)

/-- C7: prompt rendering is a pure function of the question and csv context
alone — two workers agreeing on those two fields render identical prompts,
whatever their model name or temperature; and rendering contributes no
emission of its own: the only non-terminal notification of any run is the
single explicit initial progress emission. -/
theorem rendering_deterministic (w₁ w₂ : LLMWorker)
    (hq : w₁.question = w₂.question)
    (hc : w₁.csv_context = w₂.csv_context) :
    w₁.renderedPrompt = w₂.renderedPrompt ∧
    ∀ b : Backend, (w₁.run b).filter (fun n => !n.isTerminal) =
      [Notification.progress "Initializing LLM..."] := by
  constructor
  · unfold LLMWorker.renderedPrompt
    rw [hq, hc]
  · intro b
    obtain ⟨t, hterm, hrun⟩ := run_ordering w₁ b
    rw [hrun]
    cases t with
    | progress m => simp [Notification.isTerminal] at hterm
    | finished x => simp [Notification.isTerminal]
    | error x => simp [Notification.isTerminal]

/-- Fixtures: two workers sharing question and csv context but differing in
model name and temperature. -/
def wDet₁ : LLMWorker := ⟨"Q", "deepseek-r1:7b", 0, some "ctx"⟩

/-- Second worker of the determinism fixture pair. -/
def wDet₂ : LLMWorker := ⟨"Q", "codellama:7b", 1, some "ctx"⟩

/-- Witness for C7: the fixture pair renders the same prompt, and the fixture
run under the failing backend has only the initial progress emission as its
non-terminal notification. -/
theorem rendering_deterministic_witness :
    wDet₁.renderedPrompt = wDet₂.renderedPrompt ∧
    (wDet₁.run bFailure).filter (fun n => !n.isTerminal) =
      [Notification.progress "Initializing LLM..."] :=
  ⟨(rendering_deterministic wDet₁ wDet₂ rfl rfl).1,
   (rendering_deterministic wDet₁ wDet₂ rfl rfl).2 bFailure⟩

/-- C8: with no csv context the rendered prompt is the fixed
question-and-detailed-answer template: it equals the template with just the
question substituted, contains the question, and (checked on a sample
question) contains none of the dataset-context material. -/
theorem prompt_without_csv (q : String) :
    buildPrompt q none = "Question: " ++ q ++ "\nDetailed Answer:" ∧
    strContains (buildPrompt q none) q ∧
    ¬ strContains (buildPrompt "x" none) "CSV Data Context" := by
  refine ⟨rfl, ?_, by decide⟩
  exact strContains_intro "Question: " q "\nDetailed Answer:"

/-- Witness for C8: the sample question renders to the fixed template. -/
theorem prompt_without_csv_witness :
    buildPrompt "x" none = "Question: " ++ "x" ++ "\nDetailed Answer:" :=
  (prompt_without_csv "x").1

/-- C9: dispatching any terminal notification re-enables all four input
controls and hides the progress bar — `handle_response` and `handle_error`
both end in `_reset_ui` — and a failed notification writes the error into
the output area prefixed with `"Error: "`. -/
theorem terminal_resets_ui (s : LLMInterface) (n : Notification)
    (h : n.isTerminal = true) :
    ((s.dispatch n).ui.submitEnabled = true ∧
     (s.dispatch n).ui.inputEnabled = true ∧
     (s.dispatch n).ui.modelEnabled = true ∧
     (s.dispatch n).ui.tempEnabled = true ∧
     (s.dispatch n).ui.progressVisible = false) ∧
    ∀ m, n = Notification.error m →
      (s.dispatch n).ui.outputText = "Error: " ++ m := by
  cases n with
  | progress m => simp [Notification.isTerminal] at h
  | finished t =>
    refine ⟨?_, ?_⟩
    · simp [LLMInterface.dispatch, LLMInterface.handle_response,
        LLMInterface._reset_ui]
    · intro m hm
      cases hm
  | error m₀ =>
    refine ⟨?_, ?_⟩
    · simp [LLMInterface.dispatch, LLMInterface.handle_error,
        LLMInterface._reset_ui]
    · intro m hm
      cases hm
      simp [LLMInterface.dispatch, LLMInterface.handle_error,
        LLMInterface._reset_ui]

/-- Witness for C9: on the blank-question fixture state, a failed
notification re-enables the submit control and shows the prefixed error. -/
theorem terminal_resets_ui_witness :
    (sBlank.dispatch (Notification.error "boom")).ui.submitEnabled = true ∧
    (sBlank.dispatch (Notification.error "boom")).ui.outputText =
      "Error: " ++ "boom" :=
  ⟨(terminal_resets_ui sBlank (Notification.error "boom") rfl).1.1,
   (terminal_resets_ui sBlank (Notification.error "boom") rfl).2 "boom" rfl⟩

/-- Merging of two adjacent segments of an append chain under
right-associated grouping. -/
theorem merge_seg (a b c : String) (h : a ++ b = c) (X : String) :
    a ++ (b ++ X) = c ++ X := by
  rw [← String.append_assoc, h]

/-- A non-empty csv context is truthy, so `buildPrompt` picks the
dataset template. -/
theorem buildPrompt_some_of_ne (q c : String) (h : c ≠ "") :
    buildPrompt q (some c) = promptWithCsv c q := by
  unfold buildPrompt
  simp [h]

/-- C5: with a dataframe loaded, the rendered prompt embeds, in order, the
row and column counts, the column name list, the row preview and the summary
statistics, followed by the question and the answer-from-the-data
instruction; and for a dataframe with 10 rows and columns `a`, `b` it
contains the substrings `"10 rows"` and `"a, b"` and the literal question. -/
theorem prompt_embeds_context (q : String) (df : DataFrame) :
    buildPrompt q (some (csvContextOf df)) =
      "CSV Data Context:\n" ++ "The CSV file has " ++ toString df.nrows ++
        " rows and " ++ toString df.ncols ++ " columns.\nColumn names: " ++
        String.intercalate ", " df.columns ++
        "\n\nFirst few rows of the data:\n" ++ df.headStr ++
        "\n\nSummary statistics:\n" ++ df.describeStr ++
        "\n\nQuestion about the data: " ++ q ++
        "\n\nProvide a clear and detailed answer based on the CSV data above:" ∧
    (df.nrows = 10 → df.columns = ["a", "b"] →
      strContains (buildPrompt q (some (csvContextOf df))) "10 rows" ∧
      strContains (buildPrompt q (some (csvContextOf df))) "a, b" ∧
      strContains (buildPrompt q (some (csvContextOf df))) q) := by
  have hne := csvContextOf_ne_empty df
  have heq : buildPrompt q (some (csvContextOf df)) =
      "CSV Data Context:\n" ++ "The CSV file has " ++ toString df.nrows ++
        " rows and " ++ toString df.ncols ++ " columns.\nColumn names: " ++
        String.intercalate ", " df.columns ++
        "\n\nFirst few rows of the data:\n" ++ df.headStr ++
        "\n\nSummary statistics:\n" ++ df.describeStr ++
        "\n\nQuestion about the data: " ++ q ++
        "\n\nProvide a clear and detailed answer based on the CSV data above:" := by
    rw [buildPrompt_some_of_ne q _ hne]
    unfold promptWithCsv csvContextOf
    simp only [String.append_assoc]
  refine ⟨heq, ?_⟩
  intro h10 hcols
  rw [heq, h10, hcols]
  have hten : toString (10 : Nat) = "10" := rfl
  have hab : String.intercalate ", " ["a", "b"] = "a, b" := rfl
  rw [hten, hab]
  refine ⟨?_, ?_, ?_⟩
  · have e1 : "CSV Data Context:\n" ++ "The CSV file has " ++ "10" ++
        " rows and " ++ toString df.ncols ++ " columns.\nColumn names: " ++
        "a, b" ++ "\n\nFirst few rows of the data:\n" ++ df.headStr ++
        "\n\nSummary statistics:\n" ++ df.describeStr ++
        "\n\nQuestion about the data: " ++ q ++
        "\n\nProvide a clear and detailed answer based on the CSV data above:" =
        ("CSV Data Context:\nThe CSV file has " ++ "10 rows") ++
          (" and " ++ toString df.ncols ++ " columns.\nColumn names: " ++
            "a, b" ++ "\n\nFirst few rows of the data:\n" ++ df.headStr ++
            "\n\nSummary statistics:\n" ++ df.describeStr ++
            "\n\nQuestion about the data: " ++ q ++
            "\n\nProvide a clear and detailed answer based on the CSV data above:") := by
      simp only [String.append_assoc]
      rw [merge_seg "CSV Data Context:\n" "The CSV file has "
        "CSV Data Context:\nThe CSV file has " rfl]
      rw [merge_seg "10" " rows and " "10 rows and " rfl]
      rw [merge_seg "10 rows" " and " "10 rows and " rfl]
    rw [e1]
    exact strContains_intro "CSV Data Context:\nThe CSV file has " "10 rows" _
  · have e2 : "CSV Data Context:\n" ++ "The CSV file has " ++ "10" ++
        " rows and " ++ toString df.ncols ++ " columns.\nColumn names: " ++
        "a, b" ++ "\n\nFirst few rows of the data:\n" ++ df.headStr ++
        "\n\nSummary statistics:\n" ++ df.describeStr ++
        "\n\nQuestion about the data: " ++ q ++
        "\n\nProvide a clear and detailed answer based on the CSV data above:" =
        (("CSV Data Context:\n" ++ "The CSV file has " ++ "10" ++
          " rows and " ++ toString df.ncols ++ " columns.\nColumn names: ") ++
          "a, b") ++
          ("\n\nFirst few rows of the data:\n" ++ df.headStr ++
            "\n\nSummary statistics:\n" ++ df.describeStr ++
            "\n\nQuestion about the data: " ++ q ++
            "\n\nProvide a clear and detailed answer based on the CSV data above:") := by
      simp only [String.append_assoc]
    rw [e2]
    exact strContains_intro _ "a, b" _
  · have e3 : "CSV Data Context:\n" ++ "The CSV file has " ++ "10" ++
        " rows and " ++ toString df.ncols ++ " columns.\nColumn names: " ++
        "a, b" ++ "\n\nFirst few rows of the data:\n" ++ df.headStr ++
        "\n\nSummary statistics:\n" ++ df.describeStr ++
        "\n\nQuestion about the data: " ++ q ++
        "\n\nProvide a clear and detailed answer based on the CSV data above:" =
        (("CSV Data Context:\n" ++ "The CSV file has " ++ "10" ++
          " rows and " ++ toString df.ncols ++ " columns.\nColumn names: " ++
          "a, b" ++ "\n\nFirst few rows of the data:\n" ++ df.headStr ++
          "\n\nSummary statistics:\n" ++ df.describeStr ++
          "\n\nQuestion about the data: ") ++ q) ++
          "\n\nProvide a clear and detailed answer based on the CSV data above:" := by
      simp only [String.append_assoc]
    rw [e3]
    exact strContains_intro _ q _

/-- Fixture: a dataframe with 10 rows and the two columns `a` and `b`. -/
def dfAB : DataFrame := ⟨10, 2, ["a", "b"], "row preview", "stats"⟩

/-- Witness for C5: on the fixture dataframe the prompt for a sample
question contains `"10 rows"`, `"a, b"` and the question text. -/
theorem prompt_embeds_context_witness :
    strContains (buildPrompt "What is the mean?" (some (csvContextOf dfAB)))
      "10 rows" ∧
    strContains (buildPrompt "What is the mean?" (some (csvContextOf dfAB)))
      "a, b" ∧
    strContains (buildPrompt "What is the mean?" (some (csvContextOf dfAB)))
      "What is the mean?" :=
  (prompt_embeds_context "What is the mean?" dfAB).2 rfl rfl

/-- Fixture: the interface before any submission, question box `"q1"`. -/
def sStart : LLMInterface :=
  ⟨none, "q1", "deepseek-r1:7b", 1,
    ⟨true, true, true, true, false, "", ""⟩, none, []⟩

/-- Fixture: the worker created by the first submission. -/
def wStale : LLMWorker := ⟨"q1", "deepseek-r1:7b", 1, none⟩

/-- Fixture: the interface after the first submission. -/
def s1 : LLMInterface := sStart.process_question.1

/-- Fixture: the interface after the first submission with the question box
edited to `"q2"`, just before the superseding submission. -/
def s1Edited : LLMInterface := { s1 with inputText := "q2" }

/-- Fixture: the interface after the superseding second submission, while
the first worker may still be running. -/
def s2 : LLMInterface := s1Edited.process_question.1

/-- Fixture: the worker created by the superseding submission. -/
def wLatest : LLMWorker := ⟨"q2", "deepseek-r1:7b", 1, none⟩

/-- Counterexample to C6: after a second `process_question` supersedes the
first worker, the first worker is still connected — `process_question` never
disconnects and the slots do not check the sender — so its pending
`finished` signal still reaches the caller and overwrites the output area
with the stale response. -/
theorem stale_notification_reaches_caller :
    sStart.process_question.2 = some wStale ∧
    s1Edited.process_question.2 = some wLatest ∧
    s2.worker = some wLatest ∧
    wStale ≠ wLatest ∧
    s2.deliver wStale (Notification.finished "STALE") ≠ s2 ∧
    (s2.deliver wStale (Notification.finished "STALE")).ui.outputText =
      "STALE" := by
  decide

/-- C6 (amended): a worker once connected by `process_question` stays
connected, so its notifications are dispatched to the caller's slots exactly
like those of the current worker, even when it has been superseded and is no
longer `self.worker` — the code performs no identity filtering and stale
cross-talk into the caller's state is possible. -/
theorem superseded_worker_still_delivered (s : LLMInterface) (w : LLMWorker)
    (n : Notification) (hconn : w ∈ s.connections)
    (_hstale : s.worker ≠ some w) :
    s.deliver w n = s.dispatch n := by
  unfold LLMInterface.deliver
  simp [hconn]

/-- Witness for the amended C6: the superseded fixture worker's terminal
signal is dispatched on the post-supersession state. -/
theorem superseded_worker_still_delivered_witness :
    s2.deliver wStale (Notification.finished "STALE") =
      s2.dispatch (Notification.finished "STALE") :=
  superseded_worker_still_delivered s2 wStale (Notification.finished "STALE")
    (by decide) (by decide)
